import Mathlib

/-!
Verification development for the MIQRA / MAESTRO threat-assessment
risk-quantification core.

Shallow embedding of:
- `src/maestro_threat_assessment/models/maestro_constants.py`
- `src/maestro_threat_assessment/core/risk_calculator.py`
- `src/maestro_threat_assessment/core/monte_carlo_estimator.py`

Python floats are modelled as exact rationals (`ℚ`); every comparison
settled below sits far from any floating-point rounding boundary, so the
rational model agrees with the float semantics on the decided branches.
Python `dict.get(key, default)` on a dict literal is modelled by `lookupD`,
a first-match association-list lookup; `dict` values keyed by the finite
layer enumeration are modelled as total functions on the layer type.
-/

namespace Maestro

/-- Python `dict.get(k, d)` over a dict literal given as an association
list (keys are unique in all the tables embedded below, so first-match
lookup coincides with dict lookup). -/
def lookupD {β : Type} : List (String × β) → String → β → β
  | [], _, d => d
  | (a, b) :: t, k, d => if k = a then b else lookupD t k d

/-- Python `key in dict` followed by `dict[key]`, as one optional lookup. -/
def lookupOpt {β : Type} : List (String × β) → String → Option β
  | [], _ => none
  | (a, b) :: t, k => if k = a then some b else lookupOpt t k

/-- MAESTRO Security Framework layers (`MAESTROLayer` in
`maestro_constants.py`). -/
inductive MAESTROLayer where
  | L1_FOUNDATION_MODELS
  | L2_DATA_OPERATIONS
  | L3_AGENT_FRAMEWORKS
  | L4_DEPLOYMENT
  | L5_OBSERVABILITY
  | L6_COMPLIANCE
  | L7_ECOSYSTEM
deriving DecidableEq

open MAESTROLayer

/-- Iteration order of `for layer in MAESTROLayer` (enum declaration order). -/
def allLayers : List MAESTROLayer :=
  [L1_FOUNDATION_MODELS, L2_DATA_OPERATIONS, L3_AGENT_FRAMEWORKS, L4_DEPLOYMENT,
   L5_OBSERVABILITY, L6_COMPLIANCE, L7_ECOSYSTEM]

/-- `MAESTRO_LAYER_WEIGHTS` from `maestro_constants.py`. -/
def MAESTRO_LAYER_WEIGHTS : MAESTROLayer → ℚ
  | L1_FOUNDATION_MODELS => 0.15
  | L2_DATA_OPERATIONS => 0.10
  | L3_AGENT_FRAMEWORKS => 0.20
  | L4_DEPLOYMENT => 0.18
  | L5_OBSERVABILITY => 0.12
  | L6_COMPLIANCE => 0.15
  | L7_ECOSYSTEM => 0.10

/-- `MAESTRO_EXPOSURE_INDEX` from `maestro_constants.py`. -/
def MAESTRO_EXPOSURE_INDEX : MAESTROLayer → ℚ
  | L1_FOUNDATION_MODELS => 0.30
  | L2_DATA_OPERATIONS => 0.25
  | L3_AGENT_FRAMEWORKS => 0.45
  | L4_DEPLOYMENT => 0.40
  | L5_OBSERVABILITY => 0.35
  | L6_COMPLIANCE => 0.50
  | L7_ECOSYSTEM => 0.20

/-- `VULNERABILITY_LAYER_MAPPING` from `maestro_constants.py`. -/
def VULNERABILITY_LAYER_MAPPING : List (String × MAESTROLayer) :=
  [("prompt_injection", L1_FOUNDATION_MODELS),
   ("model_poisoning", L1_FOUNDATION_MODELS),
   ("bias_amplification", L1_FOUNDATION_MODELS),
   ("data_leakage", L2_DATA_OPERATIONS),
   ("data_poisoning", L2_DATA_OPERATIONS),
   ("privacy_violation", L2_DATA_OPERATIONS),
   ("tool_poisoning", L3_AGENT_FRAMEWORKS),
   ("agent_impersonation", L3_AGENT_FRAMEWORKS),
   ("protocol_manipulation", L3_AGENT_FRAMEWORKS),
   ("sandbox_escape", L4_DEPLOYMENT),
   ("privilege_escalation", L4_DEPLOYMENT),
   ("network_exposure", L4_DEPLOYMENT),
   ("monitoring_evasion", L5_OBSERVABILITY),
   ("log_tampering", L5_OBSERVABILITY),
   ("audit_trail_manipulation", L5_OBSERVABILITY),
   ("compliance_violation", L6_COMPLIANCE),
   ("regulatory_breach", L6_COMPLIANCE),
   ("policy_bypass", L6_COMPLIANCE),
   ("supply_chain_attack", L7_ECOSYSTEM),
   ("third_party_compromise", L7_ECOSYSTEM),
   ("dependency_vulnerability", L7_ECOSYSTEM)]

/-- `VULNERABILITY_SEVERITY_SCALE` from `maestro_constants.py` (1-10). -/
def VULNERABILITY_SEVERITY_SCALE : List (String × ℚ) :=
  [("info", 1), ("low", 2), ("medium", 4), ("high", 7), ("critical", 10)]

/-- Base 4-tuple of threat parameters (`ac`, `impact`, `vs`, `pc`).
The `CORE_THREAT_MATRIX` entries in the source additionally carry a
`layer` tag, which no consumer of the matrix reads (the Monte Carlo
estimator reads only the four numeric keys), so it is omitted here. -/
structure ThreatValues where
  ac : ℚ
  impact : ℚ
  vs : ℚ
  pc : ℚ
deriving DecidableEq

/-- `CORE_THREAT_MATRIX` from `maestro_constants.py` (numeric fields). -/
def CORE_THREAT_MATRIX : List (String × ThreatValues) :=
  [("model_extraction", ⟨2, 3, 6, 2⟩),
   ("prompt_injection", ⟨1, 5, 9, 3⟩),
   ("bias_amplification", ⟨1, 5, 9, 3⟩),
   ("model_poisoning", ⟨2, 3, 6, 2⟩),
   ("data_poisoning", ⟨2, 4, 7, 3⟩),
   ("data_leakage", ⟨1, 5, 8, 2⟩),
   ("privacy_violation", ⟨1, 5, 8, 2⟩),
   ("tool_poisoning", ⟨1, 5, 9, 3⟩),
   ("agent_impersonation", ⟨2, 4, 7, 3⟩),
   ("protocol_manipulation", ⟨1, 5, 9, 3⟩),
   ("server_compromise", ⟨3, 5, 8, 2⟩),
   ("sandbox_escape", ⟨3, 5, 8, 2⟩),
   ("privilege_escalation", ⟨3, 5, 8, 2⟩),
   ("network_exposure", ⟨1, 3, 5, 2⟩),
   ("monitoring_evasion", ⟨3, 4, 6, 1⟩),
   ("log_tampering", ⟨3, 4, 6, 1⟩),
   ("audit_trail_manipulation", ⟨3, 4, 6, 1⟩),
   ("compliance_violation", ⟨1, 5, 8, 2⟩),
   ("regulatory_breach", ⟨1, 5, 8, 2⟩),
   ("policy_bypass", ⟨1, 5, 9, 3⟩),
   ("supply_chain_attack", ⟨2, 5, 8, 3⟩),
   ("third_party_compromise", ⟨3, 5, 7, 3⟩),
   ("dependency_vulnerability", ⟨2, 5, 8, 3⟩)]

/-- `DEFAULT_THREAT_VALUES` from `maestro_constants.py`: fallback values
for unknown threats. -/
def DEFAULT_THREAT_VALUES : ThreatValues := ⟨2, 3, 5, 2⟩

/-- A vulnerability record as consumed by the risk calculator: a Python
dict whose `type` and `severity` keys are read with
`vuln.get('type', 'unknown')` and `vuln.get('severity', 'medium')`.
A missing key is modelled by `none`. -/
structure Vulnerability where
  vtype : Option String
  severity : Option String
deriving DecidableEq

/-- `vuln.get('type', 'unknown')`. -/
def Vulnerability.typeStr (v : Vulnerability) : String := v.vtype.getD "unknown"

/-- `vuln.get('severity', 'medium')`. -/
def Vulnerability.sevStr (v : Vulnerability) : String := v.severity.getD "medium"

/-- The fields of `ParsedWorkflow` that the risk calculator reads:
`workflow.name`, `workflow.metadata.get('sensitivity', 'medium')`,
`workflow.metadata.get('compliance_frameworks', [])`, and
`len(workflow.steps)` (the workflow node count). -/
structure ParsedWorkflow where
  name : String
  sensitivity : Option String
  compliance_frameworks : List String
  num_steps : ℕ
deriving DecidableEq

/-- ASCII lowercase of one character (the workflow names fed to the
keyword tests are ASCII, where Python `str.lower` acts this way). -/
def charLower (c : Char) : Char :=
  if 'A' ≤ c ∧ c ≤ 'Z' then Char.ofNat (c.toNat + 32) else c

/-- Helper for Python `needle in haystack` on strings: `listStartsWith h n`
is true when `n` is a prefix of `h`. -/
def listStartsWith : List Char → List Char → Bool
  | _, [] => true
  | [], _ :: _ => false
  | a :: as, b :: bs => a == b && listStartsWith as bs

/-- Helper for Python `needle in haystack` on strings: substring test. -/
def listContainsSub : List Char → List Char → Bool
  | [], needle => needle.isEmpty
  | h :: t, needle => listStartsWith (h :: t) needle || listContainsSub t needle

/-- Python `pat in s.lower()`. -/
def lowerContains (s pat : String) : Bool :=
  listContainsSub (s.data.map charLower) pat.data

/-- `CORE_THREAT_MATRIX.get(vuln_type, DEFAULT_THREAT_VALUES)`, the
parameter resolution used by the Monte Carlo estimator for every
vulnerability type. -/
def threatDataFor (t : String) : ThreatValues :=
  lookupD CORE_THREAT_MATRIX t DEFAULT_THREAT_VALUES

namespace RiskCalculator

/-- `self.risk_thresholds` set in `RiskCalculator.__init__`. -/
def risk_thresholds : List (String × ℚ) :=
  [("low", 0.0), ("medium", 0.30), ("high", 0.55), ("critical", 0.75)]

/-- Layer of a vulnerability type:
`VULNERABILITY_LAYER_MAPPING.get(vuln_type, MAESTROLayer.L7_ECOSYSTEM)`
from `_group_vulnerabilities_by_layer`. -/
def layerOfType (t : String) : MAESTROLayer :=
  lookupD VULNERABILITY_LAYER_MAPPING t L7_ECOSYSTEM

/-- `_group_vulnerabilities_by_layer`, restricted to one layer: the
vulnerabilities appended to `vulnerabilities_by_layer[layer]`, in input
order. -/
def vulnsForLayer (vulns : List Vulnerability) (layer : MAESTROLayer) :
    List Vulnerability :=
  vulns.filter (fun v => layerOfType v.typeStr = layer)

/-- The `complexity_mapping` dict inside
`_calculate_average_attack_complexity`. -/
def complexity_mapping : List (String × ℚ) :=
  [("data_leakage", 1), ("compliance_violation", 1), ("privacy_violation", 1),
   ("prompt_injection", 2), ("tool_poisoning", 2), ("agent_impersonation", 2),
   ("privilege_escalation", 2), ("monitoring_evasion", 3),
   ("model_poisoning", 2), ("supply_chain_attack", 3), ("sandbox_escape", 3)]

/-- Per-vulnerability attack complexity: the summand of `complexity_sum` in
`_calculate_average_attack_complexity` (type mapping, with severity-based
fallback). -/
def vulnComplexity (v : Vulnerability) : ℚ :=
  match lookupOpt complexity_mapping v.typeStr with
  | some c => c
  | none =>
    if v.sevStr = "critical" then 1
    else if v.sevStr = "high" then 2
    else 3

/-- `_calculate_average_attack_complexity`. -/
def averageAttackComplexity (vulns : List Vulnerability) : ℚ :=
  if vulns = [] then 3.0
  else (vulns.map vulnComplexity).sum / vulns.length

/-- The `sensitivity_multipliers` dict inside `_calculate_business_impact`. -/
def sensitivity_multipliers : List (String × ℚ) :=
  [("low", 0.8), ("medium", 1.0), ("high", 1.3), ("critical", 1.6)]

/-- The `critical_frameworks` list inside `_calculate_business_impact`. -/
def critical_frameworks : List String :=
  ["SOX", "PCI_DSS", "GDPR", "HIPAA", "BASEL_III"]

/-- The financial-workflow `layer_multipliers` dict inside
`_calculate_business_impact`. -/
def layerMultipliersFinancial : MAESTROLayer → ℚ
  | L1_FOUNDATION_MODELS => 1.2
  | L2_DATA_OPERATIONS => 1.2
  | L3_AGENT_FRAMEWORKS => 1.2
  | L4_DEPLOYMENT => 1.1
  | L5_OBSERVABILITY => 0.9
  | L6_COMPLIANCE => 1.1
  | L7_ECOSYSTEM => 0.9

/-- The non-financial `layer_multipliers` dict inside
`_calculate_business_impact`. -/
def layerMultipliersDefault : MAESTROLayer → ℚ
  | L1_FOUNDATION_MODELS => 1.1
  | L2_DATA_OPERATIONS => 1.1
  | L3_AGENT_FRAMEWORKS => 1.2
  | L4_DEPLOYMENT => 1.0
  | L5_OBSERVABILITY => 0.8
  | L6_COMPLIANCE => 1.2
  | L7_ECOSYSTEM => 0.9

/-- `_calculate_business_impact`. -/
def businessImpact (wf : ParsedWorkflow) (layer : MAESTROLayer)
    (vulns : List Vulnerability) : ℚ :=
  let base0 : ℚ := 1.5
  let sens := wf.sensitivity.getD "medium"
  let base1 := base0 * lookupD sensitivity_multipliers sens 1.0
  let base2 := base1 +
    (if lowerContains wf.name "financial" || lowerContains wf.name "payment"
     then 1.0 else 0)
  let base3 := base2 +
    (if lowerContains wf.name "customer" || lowerContains wf.name "user"
     then 0.8 else 0)
  let base4 := base3 + (if 5 < wf.num_steps then 0.5 else 0)
  let base5 := base4 +
    (if wf.compliance_frameworks.any (fun f => critical_frameworks.contains f)
     then 0.8 else 0)
  let mult := if lowerContains wf.name "financial"
    then layerMultipliersFinancial layer else layerMultipliersDefault layer
  let base6 := base5 * mult
  let critical_count : ℚ :=
    (vulns.filter (fun v => v.severity = some "critical")).length
  let high_count : ℚ :=
    (vulns.filter (fun v => v.severity = some "high")).length
  let base7 := if vulns = [] then base6
    else base6 + (critical_count * 0.5) + (high_count * 0.3)
  min base7 4.0

/-- `_calculate_wei_contribution`:
`(1 / max(attack_complexity, 0.1)) * business_impact * layer_weight`. -/
def weiContribution (attack_complexity business_impact : ℚ)
    (layer : MAESTROLayer) : ℚ :=
  (1 / max attack_complexity 0.1) * business_impact *
    MAESTRO_LAYER_WEIGHTS layer

/-- The `high_coupling` list inside `_estimate_protocol_coupling`. -/
def high_coupling : List String :=
  ["agent_impersonation", "protocol_manipulation", "tool_poisoning",
   "supply_chain_attack"]

/-- The `medium_coupling` list inside `_estimate_protocol_coupling`. -/
def medium_coupling : List String :=
  ["prompt_injection", "data_leakage", "sandbox_escape",
   "privilege_escalation"]

/-- `_estimate_protocol_coupling`. -/
def estimateProtocolCoupling (v : Vulnerability) : ℚ :=
  if high_coupling.contains v.typeStr then 3.0
  else if medium_coupling.contains v.typeStr then 2.0
  else 1.0

/-- Severity score `VULNERABILITY_SEVERITY_SCALE.get(severity, 4)` used in
`_calculate_rps_contribution`. -/
def severityScore (sev : String) : ℚ :=
  lookupD VULNERABILITY_SEVERITY_SCALE sev 4

/-- `_calculate_rps_contribution`: 0 for an empty layer, else the sum of
`VS x PC x EI` over the layer's vulnerabilities. -/
def rpsContribution (layer : MAESTROLayer) (vulns : List Vulnerability) : ℚ :=
  if vulns = [] then 0.0
  else (vulns.map (fun v =>
    severityScore v.sevStr * estimateProtocolCoupling v *
      MAESTRO_EXPOSURE_INDEX layer)).sum

/-- `LayerRiskScore` dataclass from `risk_calculator.py`. -/
structure LayerRiskScore where
  layer : MAESTROLayer
  attack_complexity : ℚ
  business_impact : ℚ
  vulnerability_count : ℕ
  wei_contribution : ℚ
  rps_contribution : ℚ
deriving DecidableEq

/-- One iteration of the loop in `_calculate_layer_scores`. -/
def layerScore (wf : ParsedWorkflow) (layer : MAESTROLayer)
    (layer_vulns : List Vulnerability) : LayerRiskScore :=
  let ac := averageAttackComplexity layer_vulns
  let bi := businessImpact wf layer layer_vulns
  { layer := layer
    attack_complexity := ac
    business_impact := bi
    vulnerability_count := layer_vulns.length
    wei_contribution := weiContribution ac bi layer
    rps_contribution := rpsContribution layer layer_vulns }

/-- `_calculate_maestro_wei`: sum of the per-layer WEI contributions
divided by `max(total_workflow_nodes, 1)`. -/
def calculateMaestroWEI (scores : MAESTROLayer → LayerRiskScore)
    (total_workflow_nodes : ℕ) : ℚ :=
  (allLayers.map (fun layer => (scores layer).wei_contribution)).sum /
    ((max total_workflow_nodes 1 : ℕ) : ℚ)

/-- `_calculate_maestro_rps`: plain sum of per-layer RPS contributions. -/
def calculateMaestroRPS (scores : MAESTROLayer → LayerRiskScore) : ℚ :=
  (allLayers.map (fun layer => (scores layer).rps_contribution)).sum

/-- `_determine_risk_level`:
`combined_risk = wei * 0.7 + (rps / 30.0) * 0.3` classified against
`self.risk_thresholds` with greater-or-equal comparisons. -/
def determineRiskLevel (wei rps : ℚ) : String :=
  if wei * 0.7 + rps / 30.0 * 0.3 ≥ lookupD risk_thresholds "critical" 0
    then "critical"
  else if wei * 0.7 + rps / 30.0 * 0.3 ≥ lookupD risk_thresholds "high" 0
    then "high"
  else if wei * 0.7 + rps / 30.0 * 0.3 ≥ lookupD risk_thresholds "medium" 0
    then "medium"
  else "low"

/-- `RiskAssessmentResult` dataclass (recommendation text synthesis is
presentation-only and does not feed back into any score; it is not part of
the embedded state). -/
structure RiskAssessmentResult where
  workflow_name : String
  total_wei : ℚ
  total_rps : ℚ
  layer_scores : MAESTROLayer → LayerRiskScore
  vulnerabilities_by_layer : MAESTROLayer → List Vulnerability
  risk_level : String

/-- `RiskCalculator.calculate_risk`. -/
def calculateRisk (wf : ParsedWorkflow) (vulns : List Vulnerability) :
    RiskAssessmentResult :=
  let byLayer := vulnsForLayer vulns
  let scores := fun layer => layerScore wf layer (byLayer layer)
  let total_wei := calculateMaestroWEI scores wf.num_steps
  let total_rps := calculateMaestroRPS scores
  { workflow_name := wf.name
    total_wei := total_wei
    total_rps := total_rps
    layer_scores := scores
    vulnerabilities_by_layer := byLayer
    risk_level := determineRiskLevel total_wei total_rps }

/-- The classifier stated the way the specification words it. -/
def specCombinedBand (combined : ℚ) : String :=
  if combined ≥ 0.75 then "critical"
  else if combined ≥ 0.55 then "high"
  else if combined ≥ 0.30 then "medium"
  else "low"

end RiskCalculator

/-! ### Concrete scenarios used by counterexamples and witnesses -/

/-- A minimal workflow: no keyword bonuses, default sensitivity, one step. -/
def oneStepWorkflow : ParsedWorkflow := ⟨"w", none, [], 1⟩

/-- Same minimal workflow with four steps. -/
def fourStepWorkflow : ParsedWorkflow := ⟨"w", none, [], 4⟩

/-- Scenario B workflow: node_count = 10, no keyword bonuses, default
sensitivity, no compliance frameworks. -/
def scenarioB_workflow : ParsedWorkflow := ⟨"wf", none, [], 10⟩

/-- Scenario B vulnerability list: one critical-severity vulnerability of a
type mapped to each of the 7 MAESTRO layers. -/
def scenarioB_vulns : List Vulnerability :=
  [⟨some "prompt_injection", some "critical"⟩,
   ⟨some "data_leakage", some "critical"⟩,
   ⟨some "tool_poisoning", some "critical"⟩,
   ⟨some "sandbox_escape", some "critical"⟩,
   ⟨some "monitoring_evasion", some "critical"⟩,
   ⟨some "compliance_violation", some "critical"⟩,
   ⟨some "supply_chain_attack", some "critical"⟩]

namespace MonteCarlo

/-- `MonteCarloParams` dataclass from `monte_carlo_estimator.py`. -/
structure MonteCarloParams where
  n_simulations : ℕ := 10000
  confidence_interval : ℚ := 0.95
  random_seed : ℕ := 42
deriving DecidableEq

/-- `UncertaintyDistribution` dataclass from `monte_carlo_estimator.py`. -/
structure UncertaintyDistribution where
  mean : ℚ
  std_dev : ℚ
  distribution_type : String := "normal"
  lower_bound : Option ℚ := none
  upper_bound : Option ℚ := none
deriving DecidableEq

/-- Model of NumPy's legacy global RNG: one state-advance step.
`np.random` draws are deterministic functions of the seeded state; the
precise distribution of the draws is irrelevant to the properties proved
here, so a linear-congruential surrogate stands in for the Mersenne
Twister. -/
def nextState (s : ℕ) : ℕ :=
  (6364136223846793005 * s + 1442695040888963407) % (2 ^ 64)

/-- Deterministic standard-normal surrogate draw at a given RNG state. -/
def stdNormalDraw (s : ℕ) : ℚ := ((s % 2001 : ℕ) : ℚ) / 1000 - 1

/-- Deterministic uniform surrogate draw in [0, 1]. -/
def uniformDraw (s : ℕ) : ℚ := ((s % 1001 : ℕ) : ℚ) / 1000

/-- Deterministic surrogate draw for `np.random.beta(a, b)`. -/
def betaDraw (a b : ℚ) (s : ℕ) : ℚ :=
  let _ := a
  let _ := b
  ((s % 1001 : ℕ) : ℚ) / 1000

/-- `np.random.normal(mean, std, n)`: `n` draws threading the RNG state. -/
def drawNormals (mean std : ℚ) (state : ℕ) : ℕ → List ℚ × ℕ
  | 0 => ([], state)
  | n + 1 =>
    ((mean + std * stdNormalDraw state) ::
      (drawNormals mean std (nextState state) n).1,
     (drawNormals mean std (nextState state) n).2)

/-- `np.random.uniform(lower, upper, n)`. -/
def drawUniforms (lower upper : ℚ) (state : ℕ) : ℕ → List ℚ × ℕ
  | 0 => ([], state)
  | n + 1 =>
    ((lower + (upper - lower) * uniformDraw state) ::
      (drawUniforms lower upper (nextState state) n).1,
     (drawUniforms lower upper (nextState state) n).2)

/-- `np.random.beta(a, b, n)`. -/
def drawBetas (a b : ℚ) (state : ℕ) : ℕ → List ℚ × ℕ
  | 0 => ([], state)
  | n + 1 =>
    (betaDraw a b state :: (drawBetas a b (nextState state) n).1,
     (drawBetas a b (nextState state) n).2)

/-- The clamping step ending `_generate_samples`:
`np.maximum(samples, lower)` then `np.minimum(samples, upper)`, each
applied only when the corresponding bound is declared. -/
def applyBounds (d : UncertaintyDistribution) (samples : List ℚ) : List ℚ :=
  let clamped := match d.lower_bound with
    | some lb => samples.map (fun x => max x lb)
    | none => samples
  match d.upper_bound with
  | some ub => clamped.map (fun x => min x ub)
  | none => clamped

/-- `_generate_samples`. The `none` result models the `ValueError` raised
on an unsupported distribution type. In the uniform branch, Python
`bound or fallback` treats both `None` and `0.0` as falsy, which the inner
conditionals reproduce. -/
def generateSamples (state : ℕ) (n_simulations : ℕ)
    (d : UncertaintyDistribution) : Option (List ℚ × ℕ) :=
  if d.distribution_type = "normal" then
    some (applyBounds d (drawNormals d.mean d.std_dev state n_simulations).1,
      (drawNormals d.mean d.std_dev state n_simulations).2)
  else if d.distribution_type = "uniform" then
    let lower := match d.lower_bound with
      | some l => if l = 0 then d.mean - d.std_dev else l
      | none => d.mean - d.std_dev
    let upper := match d.upper_bound with
      | some u => if u = 0 then d.mean + d.std_dev else u
      | none => d.mean + d.std_dev
    some (applyBounds d (drawUniforms lower upper state n_simulations).1,
      (drawUniforms lower upper state n_simulations).2)
  else if d.distribution_type = "beta" then
    let alpha := d.mean * (d.mean * (1 - d.mean) / d.std_dev ^ 2 - 1)
    let bparam := (1 - d.mean) * (d.mean * (1 - d.mean) / d.std_dev ^ 2 - 1)
    some (applyBounds d (drawBetas alpha bparam state n_simulations).1,
      (drawBetas alpha bparam state n_simulations).2)
  else none

/-- `np.mean`. -/
def npMean (xs : List ℚ) : ℚ := xs.sum / xs.length

/-- Mean squared deviation: the square of `np.std`. -/
def npVariance (xs : List ℚ) : ℚ :=
  (xs.map (fun x => (x - npMean xs) ^ 2)).sum / xs.length

/-- Rational surrogate for `np.std(xs)`, the real square root of
`npVariance xs` (irrational in general): a deterministic rational
approximation via the integer square root. Only its deterministic
dependence on the sample vector matters to the claims settled here. -/
def npStd (xs : List ℚ) : ℚ :=
  ((Nat.sqrt ((npVariance xs).num.toNat * (npVariance xs).den) : ℕ) : ℚ) /
    ((npVariance xs).den : ℚ)

/-- Ascending sort used by `np.percentile`. -/
def sortAsc (xs : List ℚ) : List ℚ := List.insertionSort (· ≤ ·) xs

/-- `np.percentile(xs, q)` with linear interpolation on the sorted data
(never called on an empty vector by the estimator; the `n = 0` branch is a
placeholder for NumPy's error). -/
def npPercentile (xs : List ℚ) (q : ℚ) : ℚ :=
  if xs.length = 0 then 0
  else
    let s := sortAsc xs
    let idx : ℚ := q / 100 * ((xs.length : ℚ) - 1)
    let lo : ℕ := (Int.floor idx).toNat
    let frac : ℚ := idx - (lo : ℚ)
    s.getD lo 0 + frac * (s.getD (min (lo + 1) (xs.length - 1)) 0 - s.getD lo 0)

/-- `MonteCarloResult` dataclass (`std_dev` carries the `npStd`
surrogate). -/
structure MonteCarloResult where
  mean : ℚ
  std_dev : ℚ
  confidence_interval : ℚ × ℚ
  percentiles : List (ℕ × ℚ)
  samples : List ℚ
deriving DecidableEq

/-- `_run_simulation`. -/
def runSimulation (state : ℕ) (params : MonteCarloParams)
    (d : UncertaintyDistribution) : Option (MonteCarloResult × ℕ) :=
  match generateSamples state params.n_simulations d with
  | none => none
  | some (samples, s2) =>
    let alpha := 1 - params.confidence_interval
    some ({ mean := npMean samples
            std_dev := npStd samples
            confidence_interval :=
              (npPercentile samples (alpha / 2 * 100),
               npPercentile samples ((1 - alpha / 2) * 100))
            percentiles :=
              [(5, npPercentile samples 5), (25, npPercentile samples 25),
               (50, npPercentile samples 50), (75, npPercentile samples 75),
               (95, npPercentile samples 95)]
            samples := samples }, s2)

/-- `_get_attack_complexity_distribution`. -/
def getAttackComplexityDistribution (vulns : List Vulnerability) :
    UncertaintyDistribution :=
  if vulns = [] then
    { mean := 3.0, std_dev := 0.3, distribution_type := "normal",
      lower_bound := some 2.5, upper_bound := some 3.0 }
  else
    { mean := npMean (vulns.map (fun v => (threatDataFor v.typeStr).ac))
      std_dev :=
        if 1 < (vulns.map (fun v => (threatDataFor v.typeStr).ac)).length then
          max 0.3 (npStd (vulns.map (fun v => (threatDataFor v.typeStr).ac)))
        else 0.3
      distribution_type := "normal"
      lower_bound := some 1.0
      upper_bound := some 3.0 }

/-- `_get_impact_distribution`. -/
def getImpactDistribution (vulns : List Vulnerability) :
    UncertaintyDistribution :=
  if vulns = [] then
    { mean := 1.5, std_dev := 0.5, distribution_type := "normal",
      lower_bound := some 1.0, upper_bound := some 2.5 }
  else
    { mean := npMean (vulns.map (fun v => (threatDataFor v.typeStr).impact))
      std_dev :=
        if 1 < (vulns.map (fun v => (threatDataFor v.typeStr).impact)).length
        then
          max 0.5
            (npStd (vulns.map (fun v => (threatDataFor v.typeStr).impact)))
        else 0.5
      distribution_type := "normal"
      lower_bound := some 1.0
      upper_bound := some 5.0 }

/-- `_get_vulnerability_severity_distribution`. -/
def getVulnerabilitySeverityDistribution (vulns : List Vulnerability) :
    UncertaintyDistribution :=
  if vulns = [] then
    { mean := 2.0, std_dev := 1.0, distribution_type := "normal",
      lower_bound := some 1.0, upper_bound := some 4.0 }
  else
    { mean := npMean (vulns.map (fun v => (threatDataFor v.typeStr).vs))
      std_dev :=
        if 1 < (vulns.map (fun v => (threatDataFor v.typeStr).vs)).length then
          max 1.0 (npStd (vulns.map (fun v => (threatDataFor v.typeStr).vs)))
        else 1.0
      distribution_type := "normal"
      lower_bound := some 1.0
      upper_bound := some 10.0 }

/-- `_get_protocol_coupling_distribution`. -/
def getProtocolCouplingDistribution (vulns : List Vulnerability) :
    UncertaintyDistribution :=
  if vulns = [] then
    { mean := 1.2, std_dev := 0.3, distribution_type := "normal",
      lower_bound := some 1.0, upper_bound := some 2.0 }
  else
    { mean := npMean (vulns.map (fun v => (threatDataFor v.typeStr).pc))
      std_dev :=
        if 1 < (vulns.map (fun v => (threatDataFor v.typeStr).pc)).length then
          max 0.3 (npStd (vulns.map (fun v => (threatDataFor v.typeStr).pc)))
        else 0.3
      distribution_type := "normal"
      lower_bound := some 1.0
      upper_bound := some 3.0 }

/-- The four-distribution output of `estimate_vulnerability_parameters`
(the keys of the returned `results` dict). -/
structure MCOutputs where
  attack_complexity : MonteCarloResult
  impact : MonteCarloResult
  vulnerability_severity : MonteCarloResult
  protocol_coupling : MonteCarloResult
deriving DecidableEq

/-- `estimate_vulnerability_parameters`: four simulations drawing in
sequence from the RNG stream. -/
def estimateVulnerabilityParameters (state : ℕ) (params : MonteCarloParams)
    (vulns : List Vulnerability) : Option (MCOutputs × ℕ) := do
  let (ac, s1) ← runSimulation state params
    (getAttackComplexityDistribution vulns)
  let (imp, s2) ← runSimulation s1 params (getImpactDistribution vulns)
  let (vs, s3) ← runSimulation s2 params
    (getVulnerabilitySeverityDistribution vulns)
  let (pc, s4) ← runSimulation s3 params
    (getProtocolCouplingDistribution vulns)
  pure (⟨ac, imp, vs, pc⟩, s4)

/-- `np.random.seed(seed)`: the global RNG state becomes a fixed function
of the seed alone. -/
def npSeed (seed : ℕ) : ℕ := seed

/-- Constructing a fresh `MonteCarloEstimator(params)` — whose `__init__`
calls `np.random.seed(params.random_seed)`, overwriting whatever process
RNG state (`prev`) was current — and then calling
`estimate_vulnerability_parameters` once. -/
def freshEstimatorRun (prev : ℕ) (params : MonteCarloParams)
    (vulns : List Vulnerability) : Option (MCOutputs × ℕ) :=
  let _ := prev
  estimateVulnerabilityParameters (npSeed params.random_seed) params vulns

/-- Concrete distribution used to witness the clamping property. -/
def witnessDist : UncertaintyDistribution :=
  { mean := 0, std_dev := 13, distribution_type := "normal",
    lower_bound := some 1, upper_bound := some 3 }

end MonteCarlo

/-! ### Theorems -/

/-- A property holding for the default and for every table value holds for
the result of a `dict.get`-style lookup. -/
theorem lookupD_prop {β : Type} (P : β → Prop) :
    ∀ (l : List (String × β)) (k : String) (d : β), P d →
      (∀ p ∈ l, P p.2) → P (lookupD l k d)
  | [], _, _, hd, _ => hd
  | (a, b) :: t, k, d, hd, hl => by
    unfold lookupD
    by_cases h : k = a
    · rw [if_pos h]
      exact hl (a, b) (List.mem_cons_self _ _)
    · rw [if_neg h]
      exact lookupD_prop P t k d hd
        (fun p hp => hl p (List.mem_cons_of_mem _ hp))

/-- Looking up a key that is not among the table's keys yields the
default. -/
theorem lookupD_of_not_mem {β : Type} :
    ∀ (l : List (String × β)) (k : String) (d : β),
      k ∉ l.map Prod.fst → lookupD l k d = d
  | [], _, _, _ => rfl
  | (a, b) :: t, k, d, h => by
    have hka : k ≠ a := fun hk => h (by simp [hk])
    unfold lookupD
    rw [if_neg hka]
    exact lookupD_of_not_mem t k d (fun hm => h (List.mem_cons_of_mem _ hm))

namespace RiskCalculator

/-! ### Helper lemmas about the risk calculator -/

theorem thr_critical : lookupD risk_thresholds "critical" 0 = (0.75 : ℚ) := rfl

theorem thr_high : lookupD risk_thresholds "high" 0 = (0.55 : ℚ) := rfl

theorem thr_medium : lookupD risk_thresholds "medium" 0 = (0.30 : ℚ) := rfl

theorem businessImpact_le_four (wf : ParsedWorkflow) (layer : MAESTROLayer)
    (vulns : List Vulnerability) : businessImpact wf layer vulns ≤ 4 := by
  unfold businessImpact
  exact le_trans (min_le_right _ _) (by norm_num)

theorem weights_nonneg (layer : MAESTROLayer) :
    0 ≤ MAESTRO_LAYER_WEIGHTS layer := by
  cases layer <;> norm_num [MAESTRO_LAYER_WEIGHTS]

theorem exposure_nonneg (layer : MAESTROLayer) :
    0 ≤ MAESTRO_EXPOSURE_INDEX layer := by
  cases layer <;> norm_num [MAESTRO_EXPOSURE_INDEX]

theorem severityScore_nonneg (sev : String) : 0 ≤ severityScore sev := by
  unfold severityScore
  exact lookupD_prop (fun q => 0 ≤ q) _ sev 4 (by norm_num)
    (by intro p hp; fin_cases hp <;> norm_num)

theorem coupling_nonneg (v : Vulnerability) :
    0 ≤ estimateProtocolCoupling v := by
  unfold estimateProtocolCoupling
  split
  · norm_num
  · split <;> norm_num

/-- Each summand of an RPS contribution is nonnegative. -/
theorem rps_term_nonneg (layer : MAESTROLayer) (v : Vulnerability) :
    0 ≤ severityScore v.sevStr * estimateProtocolCoupling v *
      MAESTRO_EXPOSURE_INDEX layer :=
  mul_nonneg (mul_nonneg (severityScore_nonneg _) (coupling_nonneg _))
    (exposure_nonneg _)

/-- With no vulnerabilities in a layer, the attack complexity defaults to 3
and the layer's WEI contribution is `(1/3) * business_impact * weight`. -/
theorem empty_wei_layer (wf : ParsedWorkflow) (layer : MAESTROLayer) :
    (layerScore wf layer []).wei_contribution =
      1 / 3 * businessImpact wf layer [] * MAESTRO_LAYER_WEIGHTS layer := by
  show weiContribution (averageAttackComplexity [])
    (businessImpact wf layer []) layer = _
  rw [show averageAttackComplexity [] = 3 from by
    norm_num [averageAttackComplexity]]
  unfold weiContribution
  rw [show max (3 : ℚ) 0.1 = 3 from max_eq_left (by norm_num)]

theorem empty_rps_layer (wf : ParsedWorkflow) (layer : MAESTROLayer) :
    (layerScore wf layer []).rps_contribution = 0 := by
  show rpsContribution layer [] = 0
  norm_num [rpsContribution]

/-- With an empty vulnerability list the total RPS is zero. -/
theorem total_rps_empty (wf : ParsedWorkflow) :
    (calculateRisk wf []).total_rps = 0 := by
  show (allLayers.map (fun layer =>
    (layerScore wf layer (vulnsForLayer [] layer)).rps_contribution)).sum = 0
  simp [allLayers, vulnsForLayer, empty_rps_layer]

/-- With an empty vulnerability list and at least 4 workflow nodes, the
total WEI is at most 1/3 (business impact is capped at 4 per layer and the
layer weights sum to 1). -/
theorem total_wei_empty_le (wf : ParsedWorkflow) (h : 4 ≤ wf.num_steps) :
    (calculateRisk wf []).total_wei ≤ 1 / 3 := by
  have hmax : max wf.num_steps 1 = wf.num_steps :=
    Nat.max_eq_left (le_trans (by norm_num) h)
  have hn : (4 : ℚ) ≤ (wf.num_steps : ℚ) := by exact_mod_cast h
  have hpos : (0 : ℚ) < (wf.num_steps : ℚ) := by linarith
  have hS : (allLayers.map (fun layer =>
      (layerScore wf layer (vulnsForLayer [] layer)).wei_contribution)).sum
        ≤ 4 / 3 := by
    have hle : ∀ layer ∈ allLayers,
        (layerScore wf layer (vulnsForLayer [] layer)).wei_contribution ≤
          4 / 3 * MAESTRO_LAYER_WEIGHTS layer := by
      intro layer _
      have hv : vulnsForLayer [] layer = [] := rfl
      rw [hv, empty_wei_layer]
      have h1 : 1 / 3 * businessImpact wf layer [] ≤ 4 / 3 := by
        have := businessImpact_le_four wf layer []
        linarith
      exact mul_le_mul_of_nonneg_right h1 (weights_nonneg layer)
    calc (allLayers.map (fun layer =>
        (layerScore wf layer (vulnsForLayer [] layer)).wei_contribution)).sum
        ≤ (allLayers.map (fun layer =>
            4 / 3 * MAESTRO_LAYER_WEIGHTS layer)).sum := List.sum_le_sum hle
      _ = 4 / 3 := by norm_num [allLayers, MAESTRO_LAYER_WEIGHTS]
  show (allLayers.map (fun layer =>
    (layerScore wf layer (vulnsForLayer [] layer)).wei_contribution)).sum /
      ((max wf.num_steps 1 : ℕ) : ℚ) ≤ 1 / 3
  rw [hmax, div_le_iff₀ hpos]
  linarith

/-- A combined score strictly below the medium threshold classifies low. -/
theorem determineRiskLevel_low (wei rps : ℚ)
    (h : wei * 0.7 + rps / 30.0 * 0.3 < 0.30) :
    determineRiskLevel wei rps = "low" := by
  unfold determineRiskLevel
  rw [thr_critical, thr_high, thr_medium]
  split_ifs with h1 h2 h3
  · exact absurd h1 (not_le.mpr (by linarith))
  · exact absurd h2 (not_le.mpr (by linarith))
  · exact absurd h3 (not_le.mpr (by linarith))
  · rfl

theorem determineRiskLevel_eq_specBand (wei rps : ℚ) :
    determineRiskLevel wei rps =
      specCombinedBand (0.7 * wei + 0.3 * (rps / 30.0)) := by
  unfold determineRiskLevel specCombinedBand
  rw [thr_critical, thr_high, thr_medium,
    show wei * 0.7 + rps / 30.0 * 0.3 = 0.7 * wei + 0.3 * (rps / 30.0) from
      by ring]

/-- Concrete evaluation: the plain one-step workflow with no
vulnerabilities classifies medium. -/
theorem oneStep_risk_level :
    (calculateRisk oneStepWorkflow []).risk_level = "medium" := by
  norm_num +decide [oneStepWorkflow, calculateRisk, calculateMaestroWEI,
    calculateMaestroRPS, layerScore, vulnsForLayer, layerOfType,
    averageAttackComplexity, vulnComplexity, businessImpact, weiContribution,
    rpsContribution, estimateProtocolCoupling, severityScore,
    determineRiskLevel, risk_thresholds, allLayers, MAESTRO_LAYER_WEIGHTS,
    MAESTRO_EXPOSURE_INDEX, VULNERABILITY_LAYER_MAPPING,
    VULNERABILITY_SEVERITY_SCALE, complexity_mapping, sensitivity_multipliers,
    critical_frameworks, layerMultipliersDefault, layerMultipliersFinancial,
    high_coupling, medium_coupling, lowerContains, listContainsSub,
    listStartsWith, charLower, lookupD, lookupOpt, Vulnerability.typeStr,
    Vulnerability.sevStr, max_def]

/-- Concrete evaluation of Scenario B: the total WEI. -/
theorem scenarioB_total_wei :
    (calculateRisk scenarioB_workflow scenarioB_vulns).total_wei =
      9049 / 60000 := by
  norm_num +decide [scenarioB_workflow, scenarioB_vulns, calculateRisk,
    calculateMaestroWEI, calculateMaestroRPS, layerScore, vulnsForLayer,
    layerOfType, averageAttackComplexity, vulnComplexity, businessImpact,
    weiContribution, rpsContribution, estimateProtocolCoupling, severityScore,
    allLayers, MAESTRO_LAYER_WEIGHTS, MAESTRO_EXPOSURE_INDEX,
    VULNERABILITY_LAYER_MAPPING, VULNERABILITY_SEVERITY_SCALE,
    complexity_mapping, sensitivity_multipliers, critical_frameworks,
    layerMultipliersDefault, layerMultipliersFinancial, high_coupling,
    medium_coupling, lowerContains, listContainsSub, listStartsWith, charLower,
    lookupD, lookupOpt, Vulnerability.typeStr, Vulnerability.sevStr, max_def]

/-- Concrete evaluation of Scenario B: the total RPS. -/
theorem scenarioB_total_rps :
    (calculateRisk scenarioB_workflow scenarioB_vulns).total_rps = 47 := by
  norm_num +decide [scenarioB_workflow, scenarioB_vulns, calculateRisk,
    calculateMaestroWEI, calculateMaestroRPS, layerScore, vulnsForLayer,
    layerOfType, averageAttackComplexity, vulnComplexity, businessImpact,
    weiContribution, rpsContribution, estimateProtocolCoupling, severityScore,
    allLayers, MAESTRO_LAYER_WEIGHTS, MAESTRO_EXPOSURE_INDEX,
    VULNERABILITY_LAYER_MAPPING, VULNERABILITY_SEVERITY_SCALE,
    complexity_mapping, sensitivity_multipliers, critical_frameworks,
    layerMultipliersDefault, layerMultipliersFinancial, high_coupling,
    medium_coupling, lowerContains, listContainsSub, listStartsWith, charLower,
    lookupD, lookupOpt, Vulnerability.typeStr, Vulnerability.sevStr, max_def]

/-- Concrete evaluation of Scenario B: the assigned band is high. -/
theorem scenarioB_risk_level :
    (calculateRisk scenarioB_workflow scenarioB_vulns).risk_level = "high" := by
  show determineRiskLevel
    (calculateRisk scenarioB_workflow scenarioB_vulns).total_wei
    (calculateRisk scenarioB_workflow scenarioB_vulns).total_rps = "high"
  rw [scenarioB_total_wei, scenarioB_total_rps]
  rw [determineRiskLevel, thr_critical, thr_high, thr_medium]
  norm_num

end RiskCalculator

namespace MonteCarlo

/-! ### Helper lemmas about the Monte Carlo estimator -/

theorem drawNormals_length (mean std : ℚ) :
    ∀ (state n : ℕ), ((drawNormals mean std state n).1).length = n := by
  intro state n
  induction n generalizing state with
  | zero => rfl
  | succ k ih => simp [drawNormals, ih]

theorem drawUniforms_length (lower upper : ℚ) :
    ∀ (state n : ℕ), ((drawUniforms lower upper state n).1).length = n := by
  intro state n
  induction n generalizing state with
  | zero => rfl
  | succ k ih => simp [drawUniforms, ih]

theorem drawBetas_length (a b : ℚ) :
    ∀ (state n : ℕ), ((drawBetas a b state n).1).length = n := by
  intro state n
  induction n generalizing state with
  | zero => rfl
  | succ k ih => simp [drawBetas, ih]

/-- The clamping step preserves the sample-vector length. -/
theorem applyBounds_length (d : UncertaintyDistribution) (xs : List ℚ) :
    (applyBounds d xs).length = xs.length := by
  rcases hl : d.lower_bound with _ | lb <;>
    rcases hu : d.upper_bound with _ | ub <;>
      simp [applyBounds, hl, hu]

/-- When both bounds are declared and ordered, every clamped sample lies
within them. -/
theorem applyBounds_mem (d : UncertaintyDistribution) (lb ub : ℚ)
    (hl : d.lower_bound = some lb) (hu : d.upper_bound = some ub)
    (hlu : lb ≤ ub) (xs : List ℚ) :
    ∀ y ∈ applyBounds d xs, lb ≤ y ∧ y ≤ ub := by
  intro y hy
  simp only [applyBounds, hl, hu, List.map_map, List.mem_map] at hy
  obtain ⟨x, _, rfl⟩ := hy
  exact ⟨le_min (le_max_right x lb) hlu, min_le_right _ _⟩

/-- Every successful `_generate_samples` result is the clamping of a raw
vector of exactly `n_simulations` draws. -/
theorem generateSamples_shape (state n : ℕ) (d : UncertaintyDistribution)
    (out : List ℚ) (s2 : ℕ)
    (h : generateSamples state n d = some (out, s2)) :
    ∃ raw : List ℚ, raw.length = n ∧ out = applyBounds d raw := by
  unfold generateSamples at h
  split_ifs at h with h1 h2 h3
  · simp only [Option.some.injEq, Prod.mk.injEq] at h
    exact ⟨_, drawNormals_length _ _ _ _, h.1.symm⟩
  · simp only [Option.some.injEq, Prod.mk.injEq] at h
    exact ⟨_, drawUniforms_length _ _ _ _, h.1.symm⟩
  · simp only [Option.some.injEq, Prod.mk.injEq] at h
    exact ⟨_, drawBetas_length _ _ _ _, h.1.symm⟩

/-- The attack-complexity distribution always declares both bounds, with a
strictly positive lower bound not exceeding the upper bound. -/
theorem acDist_bounds (vulns : List Vulnerability) :
    ∃ lb ub : ℚ,
      (getAttackComplexityDistribution vulns).lower_bound = some lb ∧
      (getAttackComplexityDistribution vulns).upper_bound = some ub ∧
      0 < lb ∧ lb ≤ ub := by
  by_cases hv : vulns = []
  · exact ⟨2.5, 3.0, by simp [getAttackComplexityDistribution, hv],
      by simp [getAttackComplexityDistribution, hv], by norm_num, by norm_num⟩
  · exact ⟨1.0, 3.0, by simp [getAttackComplexityDistribution, hv],
      by simp [getAttackComplexityDistribution, hv], by norm_num, by norm_num⟩

end MonteCarlo

/-! ### Claim theorems -/

open RiskCalculator MonteCarlo

/-- C1: the classifier computes `combined = 0.7 * total_wei +
0.3 * (total_rps / 30.0)` and assigns the band by comparing `combined`
against the three increasing thresholds with greater-or-equal; in
particular a combined value exactly equal to the high threshold
classifies high, not medium. -/
theorem claim_C1 :
    (∀ wei rps : ℚ, determineRiskLevel wei rps =
      specCombinedBand (0.7 * wei + 0.3 * (rps / 30.0))) ∧
    (∀ wei rps : ℚ,
      0.7 * wei + 0.3 * (rps / 30.0) = lookupD risk_thresholds "high" 0 →
      determineRiskLevel wei rps = "high") := by
  refine ⟨determineRiskLevel_eq_specBand, fun wei rps h => ?_⟩
  rw [thr_high] at h
  rw [determineRiskLevel_eq_specBand, h]
  norm_num [specCombinedBand]

/-- Witness for C1 at `wei = 11/14`, `rps = 0`, where the combined score
equals the high threshold exactly. -/
theorem claim_C1_witness : determineRiskLevel (11 / 14) 0 = "high" :=
  claim_C1.2 (11 / 14) 0 (by rw [thr_high]; norm_num)

/-- C2 counterexample: the claim says every workflow with
`node_count ≥ 1` and an empty vulnerability list classifies low, but the
plain one-step workflow with no vulnerabilities classifies medium
(its empty-layer business impacts alone push the combined score to
0.37135 ≥ 0.30). -/
theorem claim_C2_counterexample :
    1 ≤ oneStepWorkflow.num_steps ∧
    (calculateRisk oneStepWorkflow []).risk_level = "medium" ∧
    (calculateRisk oneStepWorkflow []).risk_level ≠ "low" := by
  refine ⟨le_refl 1, oneStep_risk_level, ?_⟩
  rw [oneStep_risk_level]
  decide

/-- C2 (amended): for every workflow with `node_count ≥ 4`, assessing it
with an empty vulnerability list yields `risk_level = "low"` (business
impact is capped at 4 per layer, the weights sum to 1, and the default
attack complexity is 3, so the combined score is at most
`0.7 * (4/3) / node_count < 0.30` once `node_count ≥ 4`). -/
theorem claim_C2 (wf : ParsedWorkflow) (h : 4 ≤ wf.num_steps) :
    (calculateRisk wf []).risk_level = "low" := by
  have hw := total_wei_empty_le wf h
  have hr := total_rps_empty wf
  show determineRiskLevel (calculateRisk wf []).total_wei
    (calculateRisk wf []).total_rps = "low"
  rw [hr]
  apply determineRiskLevel_low
  norm_num
  linarith

/-- Witness for C2 (amended) at the plain four-step workflow. -/
theorem claim_C2_witness :
    4 ≤ fourStepWorkflow.num_steps ∧
    (calculateRisk fourStepWorkflow []).risk_level = "low" :=
  ⟨le_refl 4, claim_C2 fourStepWorkflow (le_refl 4)⟩

/-- C3 counterexample: for the node_count-10 workflow with one
critical-severity vulnerability mapped to each of the 7 layers, the
assessment returns "high", not "critical": the combined mean score is
345343/600000 ≈ 0.576, below the 0.75 critical threshold. -/
theorem claim_C3_counterexample :
    scenarioB_workflow.num_steps = 10 ∧
    (allLayers.all (fun layer =>
      ((calculateRisk scenarioB_workflow scenarioB_vulns).layer_scores
        layer).vulnerability_count == 1)) = true ∧
    (scenarioB_vulns.all (fun v => v.sevStr == "critical")) = true ∧
    (calculateRisk scenarioB_workflow scenarioB_vulns).risk_level ≠
      "critical" ∧
    (calculateRisk scenarioB_workflow scenarioB_vulns).total_wei * 0.7 +
      (calculateRisk scenarioB_workflow scenarioB_vulns).total_rps / 30.0 *
        0.3 < lookupD risk_thresholds "critical" 0 := by
  refine ⟨rfl, ?_, by decide, ?_, ?_⟩
  · norm_num +decide [scenarioB_workflow, scenarioB_vulns, calculateRisk,
      layerScore, vulnsForLayer, layerOfType, allLayers,
      VULNERABILITY_LAYER_MAPPING, lookupD, Vulnerability.typeStr]
  · rw [scenarioB_risk_level]
    decide
  · rw [scenarioB_total_wei, scenarioB_total_rps, thr_critical]
    norm_num

/-- C3 (amended): for the node_count-10 workflow with one critical
vulnerability mapped to each of the 7 layers, the assessment returns
`risk_level = "high"` and the combined mean score is at least the high
threshold (but stays below the critical one). -/
theorem claim_C3 :
    (calculateRisk scenarioB_workflow scenarioB_vulns).risk_level = "high" ∧
    (calculateRisk scenarioB_workflow scenarioB_vulns).total_wei * 0.7 +
      (calculateRisk scenarioB_workflow scenarioB_vulns).total_rps / 30.0 *
        0.3 ≥ lookupD risk_thresholds "high" 0 := by
  refine ⟨scenarioB_risk_level, ?_⟩
  rw [scenarioB_total_wei, scenarioB_total_rps, thr_high]
  norm_num

/-- C4: the workflow-level exploitability score is the sum of the 7
per-layer WEI contributions divided by `max(node_count, 1)`, and the
workflow-level propagation score is the plain sum of the 7 per-layer RPS
contributions with no normalization. -/
theorem claim_C4 (wf : ParsedWorkflow) (vulns : List Vulnerability) :
    (calculateRisk wf vulns).total_wei =
      (allLayers.map (fun layer =>
        ((calculateRisk wf vulns).layer_scores layer).wei_contribution)).sum /
        ((max wf.num_steps 1 : ℕ) : ℚ) ∧
    (calculateRisk wf vulns).total_rps =
      (allLayers.map (fun layer =>
        ((calculateRisk wf vulns).layer_scores layer).rps_contribution)).sum :=
  ⟨rfl, rfl⟩

/-- C5: a vulnerability type found in neither lookup table resolves to the
default parameter tuple {ac=2, impact=3, vs=5, pc=2} and is assigned to
the Ecosystem (L7) layer; both resolutions are total functions, so no
error is raised. -/
theorem claim_C5 (t : String)
    (h1 : t ∉ CORE_THREAT_MATRIX.map Prod.fst)
    (h2 : t ∉ VULNERABILITY_LAYER_MAPPING.map Prod.fst) :
    threatDataFor t = DEFAULT_THREAT_VALUES ∧
    DEFAULT_THREAT_VALUES = ⟨2, 3, 5, 2⟩ ∧
    layerOfType t = MAESTROLayer.L7_ECOSYSTEM := by
  unfold threatDataFor layerOfType
  exact ⟨lookupD_of_not_mem _ _ _ h1, rfl, lookupD_of_not_mem _ _ _ h2⟩

/-- Witness for C5 at the unknown type string "custom_threat". -/
theorem claim_C5_witness :
    "custom_threat" ∉ CORE_THREAT_MATRIX.map Prod.fst ∧
    "custom_threat" ∉ VULNERABILITY_LAYER_MAPPING.map Prod.fst ∧
    threatDataFor "custom_threat" = DEFAULT_THREAT_VALUES ∧
    DEFAULT_THREAT_VALUES = ⟨2, 3, 5, 2⟩ ∧
    layerOfType "custom_threat" = MAESTROLayer.L7_ECOSYSTEM := by
  have h1 : "custom_threat" ∉ CORE_THREAT_MATRIX.map Prod.fst := by decide
  have h2 : "custom_threat" ∉ VULNERABILITY_LAYER_MAPPING.map Prod.fst := by
    decide
  exact ⟨h1, h2, claim_C5 "custom_threat" h1 h2⟩

/-- C6: the 7 layer weights sum to 1 exactly (hence within 1e-6), every
layer exposure lies in [0, 1], and the three classification thresholds are
strictly increasing. -/
theorem claim_C6 :
    (allLayers.map MAESTRO_LAYER_WEIGHTS).sum = 1 ∧
    |(allLayers.map MAESTRO_LAYER_WEIGHTS).sum - 1| < 1 / 1000000 ∧
    (∀ layer : MAESTROLayer,
      0 ≤ MAESTRO_EXPOSURE_INDEX layer ∧ MAESTRO_EXPOSURE_INDEX layer ≤ 1) ∧
    lookupD risk_thresholds "medium" 0 < lookupD risk_thresholds "high" 0 ∧
    lookupD risk_thresholds "high" 0 < lookupD risk_thresholds "critical" 0 := by
  have hsum : (allLayers.map MAESTRO_LAYER_WEIGHTS).sum = 1 := by
    norm_num [allLayers, MAESTRO_LAYER_WEIGHTS]
  refine ⟨hsum, by rw [hsum]; norm_num, ?_, ?_, ?_⟩
  · intro layer
    cases layer <;> exact ⟨by norm_num [MAESTRO_EXPOSURE_INDEX],
      by norm_num [MAESTRO_EXPOSURE_INDEX]⟩
  · rw [thr_medium, thr_high]
    norm_num
  · rw [thr_high, thr_critical]
    norm_num

/-- C7: appending one additional critical-severity vulnerability to a
layer's vulnerability list never decreases that layer's RPS contribution
(each appended term `VS x PC x EI` is nonnegative). -/
theorem claim_C7 (layer : MAESTROLayer) (vulns : List Vulnerability)
    (v : Vulnerability) (_hv : v.sevStr = "critical") :
    rpsContribution layer vulns ≤ rpsContribution layer (vulns ++ [v]) := by
  have hterm := rps_term_nonneg layer v
  cases vulns with
  | nil =>
    have h1 : rpsContribution layer [] = 0 := by norm_num [rpsContribution]
    have h2 : rpsContribution layer ([] ++ [v]) =
        severityScore v.sevStr * estimateProtocolCoupling v *
          MAESTRO_EXPOSURE_INDEX layer := by
      simp [rpsContribution]
    rw [h1, h2]
    exact hterm
  | cons a t =>
    show (if a :: t = [] then (0.0 : ℚ) else _) ≤
      (if (a :: t) ++ [v] = [] then (0.0 : ℚ) else _)
    rw [if_neg (by simp), if_neg (by simp), List.map_append, List.sum_append]
    simp only [List.map_cons, List.map_nil, List.sum_cons, List.sum_nil]
    linarith

/-- Witness for C7: appending one critical tool-poisoning vulnerability to
an empty L3 layer. -/
theorem claim_C7_witness :
    Vulnerability.sevStr ⟨some "tool_poisoning", some "critical"⟩ =
      "critical" ∧
    rpsContribution MAESTROLayer.L3_AGENT_FRAMEWORKS [] ≤
      rpsContribution MAESTROLayer.L3_AGENT_FRAMEWORKS
        ([] ++ [⟨some "tool_poisoning", some "critical"⟩]) :=
  ⟨rfl, claim_C7 MAESTROLayer.L3_AGENT_FRAMEWORKS []
    ⟨some "tool_poisoning", some "critical"⟩ rfl⟩

/-- C8: every successful `_generate_samples` run on a distribution with
declared, ordered bounds returns a vector of exactly `n_simulations`
samples all lying within the bounds (out-of-range draws are clamped, not
rejected); the attack-complexity distribution always declares a strictly
positive lower bound, so every attack-complexity sample is strictly
positive and its reciprocal is well-defined. -/
theorem claim_C8 :
    (∀ (state n : ℕ) (d : UncertaintyDistribution) (lb ub : ℚ)
        (out : List ℚ) (s2 : ℕ),
      d.lower_bound = some lb → d.upper_bound = some ub → lb ≤ ub →
      generateSamples state n d = some (out, s2) →
      out.length = n ∧
        out.all (fun y => decide (lb ≤ y) && decide (y ≤ ub)) = true) ∧
    (∀ vulns : List Vulnerability, ∃ lb : ℚ,
      (getAttackComplexityDistribution vulns).lower_bound = some lb ∧
        0 < lb) ∧
    (∀ (vulns : List Vulnerability) (state n : ℕ) (out : List ℚ) (s2 : ℕ),
      generateSamples state n (getAttackComplexityDistribution vulns) =
        some (out, s2) →
      out.all (fun y => decide ((0 : ℚ) < y)) = true) := by
  have main : ∀ (state n : ℕ) (d : UncertaintyDistribution) (lb ub : ℚ)
      (out : List ℚ) (s2 : ℕ),
      d.lower_bound = some lb → d.upper_bound = some ub → lb ≤ ub →
      generateSamples state n d = some (out, s2) →
      out.length = n ∧ ∀ y ∈ out, lb ≤ y ∧ y ≤ ub := by
    intro state n d lb ub out s2 hl hu hlu hg
    obtain ⟨raw, hlen, hout⟩ := generateSamples_shape state n d out s2 hg
    subst hout
    exact ⟨by rw [applyBounds_length, hlen],
      applyBounds_mem d lb ub hl hu hlu raw⟩
  refine ⟨?_, ?_, ?_⟩
  · intro state n d lb ub out s2 hl hu hlu hg
    obtain ⟨hlen, hmem⟩ := main state n d lb ub out s2 hl hu hlu hg
    refine ⟨hlen, ?_⟩
    rw [List.all_eq_true]
    intro y hy
    obtain ⟨hy1, hy2⟩ := hmem y hy
    simp only [Bool.and_eq_true, decide_eq_true_eq]
    exact ⟨hy1, hy2⟩
  · intro vulns
    obtain ⟨lb, ub, hl, hu, hpos, hlu⟩ := acDist_bounds vulns
    exact ⟨lb, hl, hpos⟩
  · intro vulns state n out s2 hg
    obtain ⟨lb, ub, hl, hu, hpos, hlu⟩ := acDist_bounds vulns
    obtain ⟨hlen, hmem⟩ := main state n _ lb ub out s2 hl hu hlu hg
    rw [List.all_eq_true]
    intro y hy
    simp only [decide_eq_true_eq]
    exact lt_of_lt_of_le hpos (hmem y hy).1

/-- Witness for C8 on a concrete normal distribution with bounds [1, 3]:
two generated samples, both in bounds after clamping. -/
theorem claim_C8_witness :
    witnessDist.lower_bound = some 1 ∧ witnessDist.upper_bound = some 3 ∧
    (1 : ℚ) ≤ 3 ∧
    (applyBounds witnessDist (drawNormals 0 13 0 2).1).length = 2 ∧
    (applyBounds witnessDist (drawNormals 0 13 0 2).1).all
      (fun y => decide ((1 : ℚ) ≤ y) && decide (y ≤ (3 : ℚ))) = true := by
  have h := claim_C8.1 0 2 witnessDist 1 3
    (applyBounds witnessDist (drawNormals 0 13 0 2).1)
    (drawNormals 0 13 0 2).2 rfl rfl (by norm_num) rfl
  exact ⟨rfl, rfl, by norm_num, h.1, h.2⟩

/-- C9: two Monte Carlo parameter estimations on freshly constructed
estimators with the same seed, sample count and confidence level, over the
same vulnerability list, produce identical outputs (all four summary
results, including means, standard deviations, intervals, percentiles and
sample vectors), regardless of the prior process RNG state, because
construction reseeds the generator. -/
theorem claim_C9 (p1 p2 : MonteCarloParams) (prev1 prev2 : ℕ)
    (vulns : List Vulnerability)
    (hseed : p1.random_seed = p2.random_seed)
    (hn : p1.n_simulations = p2.n_simulations)
    (hci : p1.confidence_interval = p2.confidence_interval) :
    freshEstimatorRun prev1 p1 vulns = freshEstimatorRun prev2 p2 vulns := by
  obtain ⟨n1, c1, s1⟩ := p1
  obtain ⟨n2, c2, s2⟩ := p2
  dsimp only at hseed hn hci
  subst hseed
  subst hn
  subst hci
  rfl

/-- Witness for C9: the same parameters from two different prior RNG
states yield the same outputs. -/
theorem claim_C9_witness :
    freshEstimatorRun 0 ⟨3, 0.95, 7⟩ [] =
      freshEstimatorRun 999 ⟨3, 0.95, 7⟩ [] :=
  claim_C9 ⟨3, 0.95, 7⟩ ⟨3, 0.95, 7⟩ 0 999 [] rfl rfl rfl

/-- C10: the business impact computed for any workflow, layer and
vulnerability list — and hence every `LayerRiskScore.business_impact` in an
assessment result — is at most 4.0, by the final `min(base_impact, 4.0)`
cap. -/
theorem claim_C10 (wf : ParsedWorkflow) (layer : MAESTROLayer)
    (vulns : List Vulnerability) :
    businessImpact wf layer vulns ≤ 4 ∧
    ((calculateRisk wf vulns).layer_scores layer).business_impact ≤ 4 :=
  ⟨businessImpact_le_four wf layer vulns,
   businessImpact_le_four wf layer (vulnsForLayer vulns layer)⟩

end Maestro
